import Mathlib

/-!
Shallow embedding of the Mini-Shell command evaluator (`src/cmd.c`) and
proofs about its behaviour.

The embedding models:
* the parent branch of `parse_simple` around `waitpid` (lines 150-157);
* the child branch of `parse_simple`: redirection setup (lines 112-141)
  and the `execvp` failure path (lines 143-147);
* the `cd` builtin branch of `parse_simple` (lines 65-84) and `shell_cd`
  (lines 23-38), over an abstract file-system state;
* `run_in_parallel` (lines 165-203) and `run_on_pipe` (lines 208-258) as
  functions of the outcomes of the underlying `fork`/`pipe`/`waitpid` calls;
* `parse_command` (lines 263-316) as a denotational evaluator on command
  trees whose leaves carry the status and side effects that `parse_simple`
  would produce, with `exit`/`quit` dispatched on the verb as in the source.

Machine integers are modelled as `Int`/`Nat`; the `waitpid` status word uses
the POSIX encoding (exit code in bits 8..15, termination signal in the low
seven bits).
-/

namespace MiniShell

/-- POSIX `WIFEXITED` macro on a `waitpid` status word: the low seven bits
are zero exactly when the child terminated normally. -/
def WIFEXITED (status : Nat) : Bool :=
  status % 128 == 0

/-- Status word `waitpid` reports for a child that terminated normally with
the given exit code: the low eight bits of the code placed in bits 8..15. -/
def wait_status_of_exit (code : Nat) : Nat :=
  256 * (code % 256)

/-- Status word `waitpid` reports for a child killed by signal `sig`
(1 ≤ sig ≤ 126): the signal number itself sits in the low seven bits. -/
def wait_status_of_signal (sig : Nat) : Nat :=
  sig % 128

/-- Parent branch of `parse_simple` (cmd.c lines 150-157): `waitpid` failure
(modelled as `none`) yields -1; on a status word satisfying `WIFEXITED` the
function returns the raw status word itself; otherwise it returns 0. -/
def parse_simple_wait (w : Option Nat) : Int :=
  match w with
  | none => -1
  | some status => if WIFEXITED status then (status : Int) else 0

/-- Parent view of `run_in_parallel` (cmd.c lines 165-203): each `fork` either
succeeds (`true`) or fails, and each `waitpid` either fails (`none`) or
delivers a status word. A failed first fork, a failed second fork, or a failed
wait each return `false` at the point the source does; otherwise the result is
the C logical AND `status1 && status2` of the two raw status words. -/
def run_in_parallel (fork1_ok fork2_ok : Bool) (wait1 wait2 : Option Nat) :
    Bool :=
  if fork1_ok = false then false
  else if fork2_ok = false then false
  else
    match wait1 with
    | none => false
    | some status1 =>
      match wait2 with
      | none => false
      | some status2 => (status1 != 0) && (status2 != 0)

/-- Parent view of `run_on_pipe` (cmd.c lines 208-258): a failed `pipe`,
either failed `fork`, or either failed `waitpid` returns `false`; otherwise
the `bool` result is the C truth value of the second child's raw status word
(`return status2;` with return type `bool`). The first child's status word is
observed but discarded. -/
def run_on_pipe (pipe_ok fork1_ok fork2_ok : Bool) (wait1 wait2 : Option Nat) :
    Bool :=
  if pipe_ok = false then false
  else if fork1_ok = false then false
  else if fork2_ok = false then false
  else
    match wait1 with
    | none => false
    | some _status1 =>
      match wait2 with
      | none => false
      | some status2 => status2 != 0

/-- The `int` value `parse_command` receives from the `bool`-returning
`run_on_pipe` at the `OP_PIPE` case (C bool-to-int conversion: 1 or 0). -/
def run_on_pipe_int (pipe_ok fork1_ok fork2_ok : Bool)
    (wait1 wait2 : Option Nat) : Int :=
  if run_on_pipe pipe_ok fork1_ok fork2_ok wait1 wait2 then 1 else 0

/-- A `word_t`: `string` is the literal first fragment (`w->string` in the
source) and `resolved` is the full expansion `get_word(w)` produced by the
external word resolver. -/
structure Word where
  string : String
  resolved : String
deriving DecidableEq, Repr

/-- Mode bits of an `open` call as used by `cmd.c`: read-only for stdin
redirections, and write-create with either truncation or append for
stdout/stderr redirections. -/
inductive OpenMode where
  | readOnly
  | truncate
  | append
deriving DecidableEq, Repr

/-- One successful `open` call: the path handed to `open` and its mode. -/
structure OpenEvent where
  path : String
  mode : OpenMode
deriving DecidableEq, Repr

/-- What a standard stream is bound to: the stream inherited from the parent
process, or the open file description created by the `idx`-th `open` event of
the trace (the descriptor number itself is closed after `dup2`, but the
description stays installed on the stream). -/
inductive Sink where
  | inherited
  | opened (idx : Nat)
deriving DecidableEq, Repr

/-- A process's three standard streams together with the trace of `open`
events it has performed. -/
structure Streams where
  stdin : Sink
  stdout : Sink
  stderr : Sink
  opens : List OpenEvent
deriving DecidableEq, Repr

/-- Number of `open` events in a trace whose path is `p`. -/
def countOpens (p : String) (l : List OpenEvent) : Nat :=
  (l.filter (fun e => e.path = p)).length

/-- Redirection setup the child performs before `execvp` (cmd.c lines
112-141), starting from wholly inherited streams: `in` is opened read-only on
`get_word(s->in)` and installed as stdin; `out`/`err` are opened on their
resolved paths (append or truncate per their independent `io_flags` bits) and
installed; finally, if both `out` and `err` are present and their literal
`->string` fields compare equal, the resolved `out` path is opened once more
with truncation and that single description is installed as both stdout and
stderr. -/
def redirect_child (sin sout serr : Option Word) (outAppend errAppend : Bool) :
    Streams :=
  let st0 : Streams := ⟨Sink.inherited, Sink.inherited, Sink.inherited, []⟩
  let st1 :=
    match sin with
    | none => st0
    | some w =>
      { st0 with stdin := Sink.opened st0.opens.length,
                 opens := st0.opens ++ [⟨w.resolved, OpenMode.readOnly⟩] }
  let st2 :=
    match sout with
    | none => st1
    | some w =>
      { st1 with stdout := Sink.opened st1.opens.length,
                 opens := st1.opens ++
                   [⟨w.resolved,
                     if outAppend then OpenMode.append else OpenMode.truncate⟩] }
  let st3 :=
    match serr with
    | none => st2
    | some w =>
      { st2 with stderr := Sink.opened st2.opens.length,
                 opens := st2.opens ++
                   [⟨w.resolved,
                     if errAppend then OpenMode.append else OpenMode.truncate⟩] }
  match sout, serr with
  | some wo, some we =>
    if wo.string = we.string then
      { st3 with stdout := Sink.opened st3.opens.length,
                 stderr := Sink.opened st3.opens.length,
                 opens := st3.opens ++ [⟨wo.resolved, OpenMode.truncate⟩] }
    else st3
  | _, _ => st3

/-- Redirection handling of the `cd` builtin branch of `parse_simple` (cmd.c
lines 65-82), acting on the shell process's own streams: `in` is opened
read-only on its literal `->string` and immediately closed; `out` is opened
write-create-truncate on its literal and immediately closed; `err` is opened
write-create-truncate on its literal, `dup2`-ed onto the standard error
stream, and the descriptor closed — the stream stays rebound. -/
def cd_redirect (sin sout serr : Option Word) (st : Streams) : Streams :=
  let st1 :=
    match sin with
    | none => st
    | some w => { st with opens := st.opens ++ [⟨w.string, OpenMode.readOnly⟩] }
  let st2 :=
    match sout with
    | none => st1
    | some w =>
      { st1 with opens := st1.opens ++ [⟨w.string, OpenMode.truncate⟩] }
  match serr with
  | none => st2
  | some w =>
    { st2 with stderr := Sink.opened st2.opens.length,
               opens := st2.opens ++ [⟨w.string, OpenMode.truncate⟩] }

/-- Abstract process state seen by `chdir`/`getenv`: the current directory,
the set of directories that exist and are accessible, and the `HOME` and
`OLDPWD` environment values. -/
structure CdState where
  cwd : String
  dirs : List String
  home : Option String
  oldpwd : Option String
deriving DecidableEq, Repr

/-- `chdir` on the abstract state: succeeds exactly when the argument is a
non-null path naming an existing directory (an unset environment value passed
through is a null argument, which fails). -/
def chdir (p : Option String) (st : CdState) : Option CdState :=
  match p with
  | none => none
  | some path => if path ∈ st.dirs then some { st with cwd := path } else none

/-- Result of `shell_cd`: a normal boolean return, or a crash — the source
dereferences `dir->string` at line 30 even when `dir` is null. -/
inductive CdOutcome where
  | ret (ok : Bool) (st : CdState)
  | crash (st : CdState)
deriving DecidableEq, Repr

/-- Last statement of `shell_cd` (cmd.c lines 34-37): `chdir(dir->string)`
fails with `false`, otherwise `true`. Reached for every non-null `dir` that
did not already cause an early `false` return. -/
def shell_cd_last (ds : String) (st : CdState) : CdOutcome :=
  match chdir (some ds) st with
  | none => CdOutcome.ret false st
  | some st1 => CdOutcome.ret true st1

/-- Middle of `shell_cd` (cmd.c lines 30-32): `strcmp(dir->string, "-")`
crashes when `dir` is null; on `"-"` a failing `chdir(getenv("OLDPWD"))`
returns `false`, a successful one falls through to the final `chdir`. -/
def shell_cd_rest (dir : Option String) (st : CdState) : CdOutcome :=
  match dir with
  | none => CdOutcome.crash st
  | some ds =>
    if ds = "-" then
      match chdir st.oldpwd st with
      | none => CdOutcome.ret false st
      | some st1 => shell_cd_last ds st1
    else shell_cd_last ds st

/-- `shell_cd` (cmd.c lines 23-38), fall-through structure preserved: when
`dir` is null, or its literal string is null, `"~"` or `""`, a failing
`chdir(getenv("HOME"))` returns `false`; on success control falls through to
the `"-"` comparison and then to the unconditional `chdir(dir->string)`. A
null `dir`/string is modelled as `none`. -/
def shell_cd (dir : Option String) (st : CdState) : CdOutcome :=
  if dir = none ∨ dir = some "~" ∨ dir = some "" then
    match chdir st.home st with
    | none => CdOutcome.ret false st
    | some st1 => shell_cd_rest dir st1
  else shell_cd_rest dir st

/-- The `cd` branch of `parse_simple` (cmd.c lines 65-84): perform the
redirection side effects on the shell's own streams, run `shell_cd` on the
literal string of `s->params`, and return `!shell_cd(...)` as the status —
`none` models the crash of `shell_cd` on a null argument. The returned
streams are exactly `cd_redirect`'s output: nothing is restored afterwards. -/
def parse_simple_cd (sin sout serr : Option Word) (params : Option String)
    (io : Streams) (fs : CdState) : Option (Int × Streams × CdState) :=
  let io2 := cd_redirect sin sout serr io
  match shell_cd params fs with
  | CdOutcome.crash _ => none
  | CdOutcome.ret ok fs2 => some (if ok then 0 else 1, io2, fs2)

/-- ASCII apostrophe, written by code point to mirror the C format string. -/
def squote : String := String.singleton (Char.ofNat 39)

/-- Diagnostic `parse_simple` prints to standard error when `execvp` fails
(cmd.c line 145): `Execution failed for '<verb>'` and a newline. -/
def exec_fail_message (verb : String) : String :=
  "Execution failed for " ++ squote ++ verb ++ squote ++ "\n"

/-- How the forked child ends after the redirection setup: `execvp` either
replaces the process image (and never returns), or returns -1, upon which the
child prints the diagnostic and calls `exit(EXIT_FAILURE)` (cmd.c lines
143-147). There is no constructor for returning to the caller: the child
never rejoins the caller's control flow. -/
inductive ChildEnd where
  | replaced
  | exited (code : Nat)
deriving DecidableEq, Repr

/-- Exec step of the child (cmd.c lines 143-148), paired with the lines it
writes to standard error. -/
def child_exec (verb : String) (exec_ok : Bool) : ChildEnd × List String :=
  if exec_ok then (ChildEnd.replaced, [])
  else (ChildEnd.exited 1, [exec_fail_message verb])

/-- How one call of `parse_command` ends: `term code` when the process running
it is terminated from inside the call (`exit`/`quit` reach `exit(0)`), and
`ret status` for a normal return of the status. -/
inductive Outcome where
  | term (code : Int)
  | ret (status : Int)
deriving DecidableEq, Repr

/-- A leaf as the evaluator sees it: the verb's literal string, and the status
and side effects that `parse_simple`'s non-`exit` branches (cd, assignment,
external command — modelled in detail separately) would produce for it. Side
effects are abstract tokens so that "cmd2's effects are absent" is statable. -/
structure SLeaf where
  verb : String
  status : Int
  effects : List Nat
deriving DecidableEq, Repr

/-- Dispatch of `parse_simple` on the verb as far as the tree-level claims
need it: a verb equal to `"exit"` or `"quit"` reaches `shell_exit`, which
calls `exit(EXIT_SUCCESS)` and terminates the process with no effects (cmd.c
lines 87-88, 43-49); every other leaf returns its recorded status and
performs its recorded effects. -/
def leafEval (s : SLeaf) : Outcome × List Nat :=
  if s.verb = "exit" ∨ s.verb = "quit" then (Outcome.term 0, [])
  else (Outcome.ret s.status, s.effects)

/-- A `command_t` tree: a possibly-null simple leaf for `OP_NONE`, one
constructor per operator, and `opUnknown` for the `default` case. -/
inductive Cmd where
  | simple (s : Option SLeaf)
  | opSequential (c1 c2 : Cmd)
  | opParallel (c1 c2 : Cmd)
  | opCondNZ (c1 c2 : Cmd)
  | opCondZ (c1 c2 : Cmd)
  | opPipe (c1 c2 : Cmd)
  | opUnknown
deriving DecidableEq, Repr

/-- Modelled from the spec: the distinguished shell-exit sentinel
`SHELL_EXIT` returned for an unrecognized operator; its numeric value lives
in `cmd.h`, which is not part of the sources, so an arbitrary distinguished
negative value is used. -/
def SHELL_EXIT : Int := -100

/-- Status word the parent observes for a child process that ran
`parse_command` and ended with the given outcome: the child calls `exit(rc)`
(or was terminated inside the call by `exit`), so the kernel keeps the low
eight bits of the code and reports them in bits 8..15 of the status word. -/
def waitStatusOf (o : Outcome) : Nat :=
  match o with
  | Outcome.term k => 256 * (k % 256).toNat
  | Outcome.ret r => 256 * (r % 256).toNat

/-- `parse_command` (cmd.c lines 263-316) as a denotational evaluator, paired
with the list of side effects performed in order. A null node returns 0;
`OP_SEQUENTIAL` evaluates both children and combines with C bitwise AND
(`rc &= ...`); the conditionals evaluate `cmd2` only when `cmd1`'s status
passes their test; `OP_PARALLEL` and `OP_PIPE` run the children in forked
processes (so a child's `exit` ends only that child) and combine the status
words as `run_in_parallel`/`run_on_pipe` do on their success path, converted
back to `int`; an unknown operator returns `SHELL_EXIT`. A `term` outcome of
a child evaluated in this same process propagates: nothing after it runs. -/
def parse_command : Cmd → Outcome × List Nat
  | Cmd.simple none => (Outcome.ret 0, [])
  | Cmd.simple (some s) => leafEval s
  | Cmd.opSequential c1 c2 =>
    match parse_command c1 with
    | (Outcome.term k, e1) => (Outcome.term k, e1)
    | (Outcome.ret r1, e1) =>
      match parse_command c2 with
      | (Outcome.term k, e2) => (Outcome.term k, e1 ++ e2)
      | (Outcome.ret r2, e2) => (Outcome.ret (Int.land r1 r2), e1 ++ e2)
  | Cmd.opCondNZ c1 c2 =>
    match parse_command c1 with
    | (Outcome.term k, e1) => (Outcome.term k, e1)
    | (Outcome.ret r1, e1) =>
      if r1 ≠ 0 then
        match parse_command c2 with
        | (o2, e2) => (o2, e1 ++ e2)
      else (Outcome.ret r1, e1)
  | Cmd.opCondZ c1 c2 =>
    match parse_command c1 with
    | (Outcome.term k, e1) => (Outcome.term k, e1)
    | (Outcome.ret r1, e1) =>
      if r1 = 0 then
        match parse_command c2 with
        | (o2, e2) => (o2, e1 ++ e2)
      else (Outcome.ret r1, e1)
  | Cmd.opParallel c1 c2 =>
    match parse_command c1, parse_command c2 with
    | (o1, e1), (o2, e2) =>
      (Outcome.ret
        (if (waitStatusOf o1 != 0) && (waitStatusOf o2 != 0) then 1 else 0),
       e1 ++ e2)
  | Cmd.opPipe c1 c2 =>
    match parse_command c1, parse_command c2 with
    | (_o1, e1), (o2, e2) =>
      (Outcome.ret (if waitStatusOf o2 != 0 then 1 else 0), e1 ++ e2)
  | Cmd.opUnknown => (Outcome.ret SHELL_EXIT, [])

end MiniShell

namespace MiniShell

/-- Claim C1 counterexample: a child that terminates normally with exit code 1
makes the executor return 256 (the raw wait-status word), not the exit code 1,
so the returned `ExitStatus` does not equal the child's exit code. -/
theorem wait_not_exit_code_cex :
    parse_simple_wait (some (wait_status_of_exit 1)) = 256 ∧
      parse_simple_wait (some (wait_status_of_exit 1)) ≠ 1 := by
  constructor <;> decide

/-- Claim C1 (corrected): when the forked child terminates normally with exit
code `code`, the executor returns the raw wait status `256 * (code % 256)`
(which equals the exit code only when that code is 0); when the child
terminates abnormally (status word whose low seven bits are nonzero, e.g. a
signal death) it returns 0; and when the wait call itself fails it returns -1,
a value no normal return can take since every normal return is nonnegative. -/
theorem wait_status_semantics (code st : Nat) (habn : st % 128 ≠ 0) :
    parse_simple_wait (some (wait_status_of_exit code)) = 256 * (code % 256) ∧
      parse_simple_wait (some st) = 0 ∧
      parse_simple_wait none = -1 ∧
      ∀ s : Nat, 0 ≤ parse_simple_wait (some s) := by
  refine ⟨?_, ?_, rfl, ?_⟩
  · have h : (256 * (code % 256)) % 128 = 0 := by omega
    simp [parse_simple_wait, wait_status_of_exit, WIFEXITED, h]
  · simp [parse_simple_wait, WIFEXITED, habn]
  · intro s
    by_cases h : WIFEXITED s <;> simp [parse_simple_wait, h]

/-- Witness for `wait_status_semantics` at exit code 7 and signal status 9. -/
theorem wait_status_semantics_witness :
    parse_simple_wait (some (wait_status_of_exit 7)) = 256 * (7 % 256) ∧
      parse_simple_wait (some 9) = 0 ∧
      parse_simple_wait none = -1 ∧
      ∀ s : Nat, 0 ≤ parse_simple_wait (some s) :=
  wait_status_semantics 7 9 (by decide)

/-- Claim C3 (confirmed): when both forks and both waits succeed,
`run_in_parallel` returns the logical AND of the two children's status words
treated as C booleans (true exactly when both are nonzero); a failure of
either fork or either wait makes the call return failure. -/
theorem parallel_semantics (s1 s2 : Nat) (w1 w2 : Option Nat) (b : Bool) :
    run_in_parallel true true (some s1) (some s2) = ((s1 != 0) && (s2 != 0)) ∧
      run_in_parallel false b w1 w2 = false ∧
      run_in_parallel true false w1 w2 = false ∧
      run_in_parallel true true none w2 = false ∧
      run_in_parallel true true (some s1) none = false := by
  refine ⟨rfl, ?_, rfl, rfl, rfl⟩
  simp [run_in_parallel]

/-- Claim C5 counterexample: with pipe, forks and waits all succeeding, a
first child of status 0 and a second child of status word 512 (exit code 2)
make the runner report 1 — not the second child's status 512 (nor 2). -/
theorem pipe_status_cex :
    run_on_pipe_int true true true (some 0) (some 512) = 1 ∧
      run_on_pipe_int true true true (some 0) (some 512) ≠ 512 ∧
      run_on_pipe_int true true true (some 0) (some 512) ≠ 2 := by
  refine ⟨rfl, by decide, by decide⟩

/-- Claim C5 (corrected): when pipe creation, forks and waits all succeed, the
runner returns the boolean coercion of the second child's status word — as an
`int`, 1 when that status is nonzero and 0 when it is zero — rather than the
status itself; the first child's status never affects the result. -/
theorem pipe_semantics (s1 s2 : Nat) :
    run_on_pipe true true true (some s1) (some s2) = (s2 != 0) ∧
      run_on_pipe_int true true true (some s1) (some s2)
        = (if s2 ≠ 0 then 1 else 0) ∧
      ∀ s1a : Nat, run_on_pipe true true true (some s1a) (some s2)
        = run_on_pipe true true true (some s1) (some s2) := by
  refine ⟨rfl, ?_, fun s1a => rfl⟩
  by_cases h : s2 = 0 <;> simp [run_on_pipe_int, run_on_pipe, h]

/-- Claim C2 (confirmed): a SEQUENTIAL node evaluates `cmd1` and then `cmd2`
unconditionally — the node performs `cmd1`'s effects followed by `cmd2`'s
whatever `cmd1`'s status is — and its result is the bitwise AND of the two
child statuses. -/
theorem sequential_bitand (c1 c2 : Cmd) (r1 r2 : Int) (e1 e2 : List Nat)
    (h1 : parse_command c1 = (Outcome.ret r1, e1))
    (h2 : parse_command c2 = (Outcome.ret r2, e2)) :
    parse_command (Cmd.opSequential c1 c2)
      = (Outcome.ret (Int.land r1 r2), e1 ++ e2) := by
  simp [parse_command, h1, h2]

/-- Witness for `sequential_bitand` on leaves of status 2 and 1: `cmd2` runs
although `cmd1`'s status 2 is nonzero, and the statuses combine to 0. -/
theorem sequential_bitand_witness :
    parse_command (Cmd.opSequential (Cmd.simple (some ⟨"a", 2, [0]⟩))
        (Cmd.simple (some ⟨"b", 1, [1]⟩))) = (Outcome.ret 0, [0, 1]) :=
  (sequential_bitand (Cmd.simple (some ⟨"a", 2, [0]⟩))
    (Cmd.simple (some ⟨"b", 1, [1]⟩)) 2 1 [0] [1]
    (by decide) (by decide)).trans (by decide)

/-- Claim C7 (confirmed): a COND_NONZERO node evaluates `cmd2` exactly when
`cmd1`'s status is nonzero, returning `cmd2`'s result (its effects appended)
in that case and `cmd1`'s status with only `cmd1`'s effects otherwise; a
COND_ZERO node does the same with the zero test. -/
theorem conditional_semantics (c1 c2 : Cmd) (r1 : Int) (e1 : List Nat)
    (h1 : parse_command c1 = (Outcome.ret r1, e1)) :
    (r1 ≠ 0 → parse_command (Cmd.opCondNZ c1 c2)
        = ((parse_command c2).1, e1 ++ (parse_command c2).2)) ∧
      (r1 = 0 → parse_command (Cmd.opCondNZ c1 c2) = (Outcome.ret r1, e1)) ∧
      (r1 = 0 → parse_command (Cmd.opCondZ c1 c2)
        = ((parse_command c2).1, e1 ++ (parse_command c2).2)) ∧
      (r1 ≠ 0 → parse_command (Cmd.opCondZ c1 c2) = (Outcome.ret r1, e1)) := by
  refine ⟨fun h => ?_, fun h => ?_, fun h => ?_, fun h => ?_⟩ <;>
    simp [parse_command, h1, h]

/-- Witness for `conditional_semantics` with `cmd1` of status 5 and `cmd2` of
status 7: the OR-like node runs `cmd2`, the AND-like node skips it and none of
`cmd2`'s effects appear. -/
theorem conditional_semantics_witness :
    parse_command (Cmd.opCondNZ (Cmd.simple (some ⟨"x", 5, [3]⟩))
        (Cmd.simple (some ⟨"y", 7, [9]⟩))) = (Outcome.ret 7, [3, 9]) ∧
      parse_command (Cmd.opCondZ (Cmd.simple (some ⟨"x", 5, [3]⟩))
        (Cmd.simple (some ⟨"y", 7, [9]⟩))) = (Outcome.ret 5, [3]) := by
  have h := conditional_semantics (Cmd.simple (some ⟨"x", 5, [3]⟩))
    (Cmd.simple (some ⟨"y", 7, [9]⟩)) 5 [3] (by decide)
  exact ⟨(h.1 (by decide)).trans (by decide), h.2.2.2 (by decide)⟩

/-- Claim C8 (confirmed): a leaf whose verb is `exit` or `quit` terminates the
current process with the success code 0 — the evaluator never receives a
normal return from it, and in any continuation evaluated by this same process
(a following SEQUENTIAL or conditional sibling) nothing further runs: the
whole tree's outcome is the termination, with no effects of the sibling. -/
theorem exit_terminates (s : SLeaf) (c2 : Cmd)
    (h : s.verb = "exit" ∨ s.verb = "quit") :
    parse_command (Cmd.simple (some s)) = (Outcome.term 0, []) ∧
      parse_command (Cmd.opSequential (Cmd.simple (some s)) c2)
        = (Outcome.term 0, []) ∧
      parse_command (Cmd.opCondNZ (Cmd.simple (some s)) c2)
        = (Outcome.term 0, []) ∧
      parse_command (Cmd.opCondZ (Cmd.simple (some s)) c2)
        = (Outcome.term 0, []) := by
  have hl : leafEval s = (Outcome.term 0, []) := by
    unfold leafEval
    rw [if_pos h]
  refine ⟨?_, ?_, ?_, ?_⟩ <;> simp [parse_command, hl]

/-- Witness for `exit_terminates` on an `exit` leaf followed by a leaf with
effects `[7]`: every combination yields termination with code 0 and no
effects. -/
theorem exit_terminates_witness :
    parse_command (Cmd.simple (some ⟨"exit", 42, [1]⟩)) = (Outcome.term 0, []) ∧
      parse_command (Cmd.opSequential (Cmd.simple (some ⟨"exit", 42, [1]⟩))
        (Cmd.simple (some ⟨"b", 3, [7]⟩))) = (Outcome.term 0, []) ∧
      parse_command (Cmd.opCondNZ (Cmd.simple (some ⟨"exit", 42, [1]⟩))
        (Cmd.simple (some ⟨"b", 3, [7]⟩))) = (Outcome.term 0, []) ∧
      parse_command (Cmd.opCondZ (Cmd.simple (some ⟨"exit", 42, [1]⟩))
        (Cmd.simple (some ⟨"b", 3, [7]⟩))) = (Outcome.term 0, []) :=
  exit_terminates ⟨"exit", 42, [1]⟩ (Cmd.simple (some ⟨"b", 3, [7]⟩))
    (Or.inl rfl)

/-- Claim C4 (code bug, evaluated at the failing inputs): in a state with
HOME `/home/u`, OLDPWD `/A` and existing directories `/`, `/A`, `/B`,
`/home/u`, current directory `/B`: `cd -` does change to `/A` but then falls
through to `chdir("-")`, which fails, so the builtin returns false and the
leaf status is 1, not 0; `cd ~` likewise ends in HOME with status 1; `cd`
with no argument crashes on the null `dir->string` dereference after a
successful `chdir(HOME)`; only a plain literal argument such as `/A` behaves
as claimed. -/
theorem cd_bug_eval :
    shell_cd (some "-")
        ⟨"/B", ["/", "/A", "/B", "/home/u"], some "/home/u", some "/A"⟩
      = CdOutcome.ret false
          ⟨"/A", ["/", "/A", "/B", "/home/u"], some "/home/u", some "/A"⟩ ∧
      parse_simple_cd none none none (some "-")
          ⟨Sink.inherited, Sink.inherited, Sink.inherited, []⟩
          ⟨"/B", ["/", "/A", "/B", "/home/u"], some "/home/u", some "/A"⟩
        = some (1, ⟨Sink.inherited, Sink.inherited, Sink.inherited, []⟩,
            ⟨"/A", ["/", "/A", "/B", "/home/u"], some "/home/u", some "/A"⟩) ∧
      shell_cd (some "~")
          ⟨"/B", ["/", "/A", "/B", "/home/u"], some "/home/u", some "/A"⟩
        = CdOutcome.ret false
            ⟨"/home/u", ["/", "/A", "/B", "/home/u"], some "/home/u",
              some "/A"⟩ ∧
      shell_cd none
          ⟨"/B", ["/", "/A", "/B", "/home/u"], some "/home/u", some "/A"⟩
        = CdOutcome.crash
            ⟨"/home/u", ["/", "/A", "/B", "/home/u"], some "/home/u",
              some "/A"⟩ ∧
      shell_cd (some "/A")
          ⟨"/B", ["/", "/A", "/B", "/home/u"], some "/home/u", some "/A"⟩
        = CdOutcome.ret true
            ⟨"/A", ["/", "/A", "/B", "/home/u"], some "/home/u", some "/A"⟩ := by
  refine ⟨?_, ?_, ?_, ?_, ?_⟩ <;> decide

/-- Claim C6 counterexample: with `out` and `err` both the literal path `f`
(resolving to `f`) and truncate mode, the child opens that path three times —
once for the `out` step, once for the `err` step, once for the merge step —
not exactly once. -/
theorem redirect_open_count_cex :
    countOpens "f"
        (redirect_child none (some ⟨"f", "f"⟩) (some ⟨"f", "f"⟩)
          false false).opens = 3 ∧
      countOpens "f"
        (redirect_child none (some ⟨"f", "f"⟩) (some ⟨"f", "f"⟩)
          false false).opens ≠ 1 := by
  refine ⟨?_, ?_⟩ <;> decide

/-- Claim C6 (corrected): when both `out` and `err` are set and their literal
strings compare equal, the child performs one final additional truncating
open of the resolved `out` path (its third open of the path, after the two
per-stream opens) and installs that single last description as both standard
output and standard error, so the two streams share one descriptor; when the
literals differ, standard output and standard error stay bound to distinct
descriptions even if the resolved paths coincide. -/
theorem redirect_merge_semantics (wo we : Word) (sin : Option Word)
    (oa ea : Bool) :
    (wo.string = we.string →
      (redirect_child sin (some wo) (some we) oa ea).stderr
          = (redirect_child sin (some wo) (some we) oa ea).stdout ∧
        (redirect_child sin (some wo) (some we) oa ea).stdout
          = Sink.opened
              ((redirect_child sin (some wo) (some we) oa ea).opens.length - 1) ∧
        (redirect_child sin (some wo) (some we) oa ea).opens.getLast?
          = some ⟨wo.resolved, OpenMode.truncate⟩) ∧
      (wo.string ≠ we.string →
        (redirect_child sin (some wo) (some we) oa ea).stdout
          ≠ (redirect_child sin (some wo) (some we) oa ea).stderr) := by
  constructor <;> intro h <;> rcases sin with _ | wi <;>
    simp [redirect_child, h, List.getLast?_concat]

/-- Witness for `redirect_merge_semantics`: equal literals `f` merge the two
streams; distinct literals `f`/`g` resolving to the same path `x` do not. -/
theorem redirect_merge_semantics_witness :
    (redirect_child none (some ⟨"f", "f"⟩) (some ⟨"f", "f"⟩)
        false false).stderr
      = (redirect_child none (some ⟨"f", "f"⟩) (some ⟨"f", "f"⟩)
          false false).stdout ∧
      (redirect_child none (some ⟨"f", "x"⟩) (some ⟨"g", "x"⟩)
          false false).stdout
        ≠ (redirect_child none (some ⟨"f", "x"⟩) (some ⟨"g", "x"⟩)
            false false).stderr :=
  ⟨((redirect_merge_semantics ⟨"f", "f"⟩ ⟨"f", "f"⟩ none false false).1
      rfl).1,
    (redirect_merge_semantics ⟨"f", "x"⟩ ⟨"g", "x"⟩ none false false).2
      (by decide)⟩

/-- Claim C9 (confirmed): when `execvp` fails, the child writes the
diagnostic line — which contains the failed verb — to standard error and
terminates with the failure code 1 (never returning to the caller: `ChildEnd`
has no return alternative), and the parent then observes wait status 256, so
the leaf evaluates to a nonzero status. -/
theorem exec_failure_semantics (verb : String) :
    child_exec verb false = (ChildEnd.exited 1, [exec_fail_message verb]) ∧
      (∃ pre post, exec_fail_message verb = pre ++ verb ++ post) ∧
      parse_simple_wait (some (wait_status_of_exit 1)) = 256 ∧
      parse_simple_wait (some (wait_status_of_exit 1)) ≠ 0 := by
  refine ⟨rfl, ⟨"Execution failed for " ++ squote, squote ++ "\n", ?_⟩,
    by decide, by decide⟩
  simp [exec_fail_message, String.append_assoc]

/-- Claim C10 (confirmed): whenever the `cd` branch returns, its stream state
is exactly `cd_redirect`'s output — nothing is restored before the leaf
hands control back, so following nodes inherit it; standard input and output
are unchanged; with no `err` target standard error is unchanged too; an `err`
target leaves standard error rebound to the last open event, a truncating
open of its literal path; an `out` target contributes a truncating open of
its literal path (created/truncated then closed) and an `in` target a
read-only open. -/
theorem cd_redirect_frame (sin sout serr : Option Word) (params : Option String)
    (io : Streams) (fs : CdState) (r : Int) (io2 : Streams) (fs2 : CdState)
    (h : parse_simple_cd sin sout serr params io fs = some (r, io2, fs2)) :
    io2 = cd_redirect sin sout serr io ∧
      io2.stdin = io.stdin ∧
      io2.stdout = io.stdout ∧
      (serr = none → io2.stderr = io.stderr) ∧
      (∀ w, serr = some w →
        io2.stderr = Sink.opened (io2.opens.length - 1) ∧
          io2.opens.getLast? = some ⟨w.string, OpenMode.truncate⟩) ∧
      (∀ w, sout = some w →
        OpenEvent.mk w.string OpenMode.truncate ∈ io2.opens) ∧
      (∀ w, sin = some w →
        OpenEvent.mk w.string OpenMode.readOnly ∈ io2.opens) := by
  have hio : io2 = cd_redirect sin sout serr io := by
    unfold parse_simple_cd at h
    rcases hc : shell_cd params fs with ⟨ok, st⟩ | st <;> rw [hc] at h <;>
      simp at h
    exact h.2.1.symm
  subst hio
  refine ⟨rfl, ?_, ?_, ?_, ?_, ?_, ?_⟩ <;>
    rcases sin with _ | wi <;> rcases sout with _ | wo <;>
      rcases serr with _ | we <;>
      simp [cd_redirect, List.getLast?_concat]

/-- Witness for `cd_redirect_frame` on a `cd /A` leaf with all three
redirection targets set, starting from inherited streams. -/
theorem cd_redirect_frame_witness :
    (cd_redirect (some ⟨"i", "i"⟩) (some ⟨"o", "o"⟩) (some ⟨"e", "e"⟩)
        ⟨Sink.inherited, Sink.inherited, Sink.inherited, []⟩).stdin
      = Sink.inherited ∧
      (cd_redirect (some ⟨"i", "i"⟩) (some ⟨"o", "o"⟩) (some ⟨"e", "e"⟩)
          ⟨Sink.inherited, Sink.inherited, Sink.inherited, []⟩).stdout
        = Sink.inherited ∧
      (cd_redirect (some ⟨"i", "i"⟩) (some ⟨"o", "o"⟩) (some ⟨"e", "e"⟩)
          ⟨Sink.inherited, Sink.inherited, Sink.inherited, []⟩).stderr
        = Sink.opened 2 := by
  have h := cd_redirect_frame (some ⟨"i", "i"⟩) (some ⟨"o", "o"⟩)
    (some ⟨"e", "e"⟩) (some "/A")
    ⟨Sink.inherited, Sink.inherited, Sink.inherited, []⟩
    ⟨"/", ["/A"], none, none⟩ 0
    ⟨Sink.inherited, Sink.inherited, Sink.opened 2,
      [⟨"i", OpenMode.readOnly⟩, ⟨"o", OpenMode.truncate⟩,
        ⟨"e", OpenMode.truncate⟩]⟩
    ⟨"/A", ["/A"], none, none⟩ (by decide)
  refine ⟨?_, ?_, ?_⟩ <;> rw [← h.1]

end MiniShell
